import Mathlib

/-!
Shallow embedding of the libdragon VI (video interface) driver, `src/vi.c`,
together with proofs about the claims of its specification.

Machine integers are modelled as `Nat` (for the unsigned 32/16-bit registers
and masks) and `Int` (for C `int` values that can be negative), with explicit
masking where the C code masks or where overflow can occur.  The hardware
register file `VI_REGISTERS` is modelled as a latch array `hw`; slot 4
(`VI_V_CURRENT`) holds the sampled value of the live scanline counter at the
moment it is read (the driver never writes it).  `disable_interrupts` /
`enable_interrupts` are no-ops in this sequential model: interleavings with
the interrupt handler are modelled explicitly by composing the handler
functions between API calls.
-/

set_option linter.unusedVariables false

/-- TV type constant (from `n64sys.h`): PAL. -/
def TV_PAL : Nat := 0

/-- TV type constant (from `n64sys.h`): NTSC. -/
def TV_NTSC : Nat := 1

/-- TV type constant (from `n64sys.h`): MPAL. -/
def TV_MPAL : Nat := 2

/-- `VI_CTRL_TYPE` bit mask (framebuffer source format). -/
def VI_CTRL_TYPE : Nat := 3

/-- `VI_CTRL_TYPE_BLANK`. -/
def VI_CTRL_TYPE_BLANK : Nat := 0

/-- `VI_CTRL_TYPE_16_BPP`. -/
def VI_CTRL_TYPE_16_BPP : Nat := 2

/-- `VI_CTRL_TYPE_32_BPP`. -/
def VI_CTRL_TYPE_32_BPP : Nat := 3

/-- `VI_CTRL_SERRATE` (interlaced output enable). -/
def VI_CTRL_SERRATE : Nat := 1 <<< 6

/-- `VI_AA_MODE_RESAMPLE`. -/
def VI_AA_MODE_RESAMPLE : Nat := 2 <<< 8

/-- `VI_PIXEL_ADVANCE_DEFAULT`. -/
def VI_PIXEL_ADVANCE_DEFAULT : Nat := 3 <<< 12

/-- `VI_PIXEL_ADVANCE_BBPLAYER`. -/
def VI_PIXEL_ADVANCE_BBPLAYER : Nat := 1 <<< 12

/-- `VI_V_CURRENT_VBLANK` (default vblank begin line). -/
def VI_V_CURRENT_VBLANK : Nat := 2

/-- `MAX_LINE_IRQS`. -/
def MAX_LINE_IRQS : Nat := 16

/-- `VI_REGISTERS_COUNT`. -/
def VI_REGISTERS_COUNT : Nat := 14

/-- Bitwise complement within 32 bits: C `~wmask` on a `uint32_t`. -/
def compl32 (m : Nat) : Nat := 0xFFFFFFFF ^^^ m

/-- 32-bit wrapping addition of a C `int` delta to a `uint32_t` value. -/
def add32 (a : Nat) (d : Int) : Nat := ((Int.ofNat a + d).emod 4294967296).toNat

/-- C `& 0x3FF` applied to an `int` (two's complement), yielding the
low 10 bits as a natural number: equals `emod 1024`. -/
def land1023 (x : Int) : Nat := (x.emod 1024).toNat

/-- `VI_H_VIDEO_SET(start, end)` = `(((start) & 0x3FF) << 16) | ((end) & 0x3FF)`,
taking C `int` arguments. `VI_V_VIDEO_SET` and `VI_V_BURST_SET` are the same
bit layout. -/
def VI_H_VIDEO_SET (a b : Int) : Nat := (land1023 a <<< 16) ||| land1023 b

/-- `VI_V_VIDEO_SET` (same layout as `VI_H_VIDEO_SET`). -/
def VI_V_VIDEO_SET (a b : Int) : Nat := VI_H_VIDEO_SET a b

/-- `VI_V_BURST_SET` (same layout as `VI_H_VIDEO_SET`). -/
def VI_V_BURST_SET (a b : Int) : Nat := VI_H_VIDEO_SET a b

/-- `VI_H_TOTAL_SET(leap_pattern, hsync)`; the C macro takes `hsync` in pixels
as a float and computes `hsync*4 - 1`; here `hsync4` is that length already in
quarter-pixel units (`hsync*4`). -/
def VI_H_TOTAL_SET (pattern hsync4 : Nat) : Nat :=
  ((pattern &&& 0x1F) <<< 16) ||| ((hsync4 - 1) &&& 0xFFF)

/-- `VI_H_TOTAL_LEAP_SET(leap_a, leap_b)` with both lengths in quarter-pixel
units (`leap*4`). -/
def VI_H_TOTAL_LEAP_SET (a4 b4 : Nat) : Nat :=
  (((a4 - 1) &&& 0xFFF) <<< 16) ||| ((b4 - 1) &&& 0xFFF)

/-- `VI_V_TOTAL_SET(vsync)` = `vsync - 1`. -/
def VI_V_TOTAL_SET (v : Nat) : Nat := v - 1

/-- `VI_BURST_SET(burst_start, vsync_width, burst_width, hsync_width)`. -/
def VI_BURST_SET (bs vw bw hs : Nat) : Nat :=
  ((bs &&& 0x3FF) <<< 20) ||| ((vw &&& 0xF) <<< 16) ||| ((bw &&& 0xFF) <<< 8) ||| (hs &&& 0xFF)

/-- One entry of the line interrupt tables (`line_irqs_t`): a scanline number
and a callback. Callbacks (C function pointers) are modelled as numeric ids,
with `0` standing for `NULL`; id `1` is `__vblank_interrupt`. -/
structure LineIrq where
  line : Nat
  handler : Nat
deriving DecidableEq, Repr

/-- `vi_borders_t`: four border offsets.  The C fields are `int16_t`; they are
modelled as `Int` (all values produced by the driver under the theorems below
fit comfortably in 16 bits, so no wrapping occurs). -/
structure vi_borders_t where
  left : Int
  right : Int
  up : Int
  down : Int
deriving DecidableEq, Repr

/-- `vi_preset_t`: per-TV-standard constants. -/
structure vi_preset_t where
  clock : Nat
  vi_h_total : Nat
  vi_h_total_leap : Nat
  vi_v_total : Nat
  vi_burst : Nat
  vi_v_burst : Nat
  display_x0 : Int
  display_y0 : Int
  display_width : Int
  display_height : Int

/-- The NTSC preset from `vi_presets[TV_NTSC]` (773.5 px * 4 = 3094 quarter-px). -/
def preset_ntsc : vi_preset_t :=
  { clock := 48681818
    vi_h_total := VI_H_TOTAL_SET 0 3094
    vi_h_total_leap := VI_H_TOTAL_LEAP_SET 3094 3094
    vi_v_total := VI_V_TOTAL_SET 526
    vi_burst := VI_BURST_SET 62 5 34 57
    vi_v_burst := VI_V_BURST_SET 14 516
    display_x0 := 108, display_y0 := 35
    display_width := 640, display_height := 480 }

/-- The PAL preset from `vi_presets[TV_PAL]` (794.5*4 = 3178; leaps 3184, 3183). -/
def preset_pal : vi_preset_t :=
  { clock := 49656530
    vi_h_total := VI_H_TOTAL_SET 0b10101 3178
    vi_h_total_leap := VI_H_TOTAL_LEAP_SET 3184 3183
    vi_v_total := VI_V_TOTAL_SET 626
    vi_burst := VI_BURST_SET 64 4 35 58
    vi_v_burst := VI_V_BURST_SET 9 619
    display_x0 := 128, display_y0 := 45
    display_width := 640, display_height := 576 }

/-- The MPAL preset from `vi_presets[TV_MPAL]` (772.25*4 = 3089; leaps 3101). -/
def preset_mpal : vi_preset_t :=
  { clock := 48628322
    vi_h_total := VI_H_TOTAL_SET 0 3089
    vi_h_total_leap := VI_H_TOTAL_LEAP_SET 3101 3101
    vi_v_total := VI_V_TOTAL_SET 526
    vi_burst := VI_BURST_SET 70 5 30 57
    vi_v_burst := VI_V_BURST_SET 14 516
    display_x0 := 108, display_y0 := 35
    display_width := 640, display_height := 480 }

/-- `vi_presets[get_tv_type()]`. -/
def vi_presets (tv : Nat) : vi_preset_t :=
  if tv = TV_NTSC then preset_ntsc else if tv = TV_PAL then preset_pal else preset_mpal

/-- The whole mutable state owned by `vi.c` (its module-level statics), plus
the hardware register latches and the external inputs fixed at boot
(TV type, iQue flag). -/
structure ViState where
  /-- `__vi_cfg`: the register mirror. -/
  cfg : Fin 14 → Nat
  /-- `VI_REGISTERS`: the physical register latches.  Slot 4 (`VI_V_CURRENT`)
  holds the sampled live scanline counter. -/
  hw : Fin 14 → Nat
  /-- `cfg_pending` (uint16 bitmask). -/
  cfg_pending : Nat
  /-- `cfg_raster` (uint16 bitmask of stabilized registers). -/
  cfg_raster : Nat
  /-- `cfg_pending_lineirqs`. -/
  cfg_pending_lineirqs : Bool
  /-- `cfg_refcount`: open write-transaction depth. -/
  cfg_refcount : Nat
  /-- `pending_blank`. -/
  pending_blank : Bool
  /-- `line_irqs`: the live line interrupt table. -/
  line_irqs : Fin 16 → LineIrq
  /-- `new_line_irqs`: the shadow line interrupt table. -/
  new_line_irqs : Fin 16 → LineIrq
  /-- `cur_line_irq`: the cursor, as an index into `line_irqs`. -/
  cur_line_irq : Nat
  /-- `interlacing_parms`: cached (ORIGIN offset, YSCALE delta). -/
  interlacing_parms : Int × Int
  /-- The `static bool inited` guard of `vi_init`. -/
  inited : Bool
  /-- Whether `register_VI_handler(__vi_interrupt)` has been called. -/
  handler_registered : Bool
  /-- Whether `set_VI_interrupt(1, ...)` has enabled the VI interrupt. -/
  vi_irq_enabled : Bool
  /-- `get_tv_type()`: external input, fixed. -/
  tv_type : Nat
  /-- `sys_bbplayer()`: external input, fixed. -/
  bbplayer : Bool

/-- Point update of a register file. -/
def setReg (f : Fin 14 → Nat) (i : Fin 14) (v : Nat) : Fin 14 → Nat :=
  fun j => if j = i then v else f j

/-- Point update of a line interrupt table. -/
def setIrq (f : Fin 16 → LineIrq) (i : Fin 16) (v : LineIrq) : Fin 16 → LineIrq :=
  fun j => if j = i then v else f j

/-- Read a line interrupt table at a `Nat` index.  An access past the end of
the array is undefined behaviour in the C source; it is unreachable while the
table keeps at least one scanline-0 sentinel, and is mapped to the sentinel
value here. -/
def irqAt (t : Fin 16 → LineIrq) (i : Nat) : LineIrq :=
  if h : i < 16 then t ⟨i, h⟩ else ⟨0, 0⟩

/-- The register write loop of `__vblank_interrupt`: for every bit set in
`writeregs`, copy `__vi_cfg[idx]` into `VI_REGISTERS[idx]`.  The C loop walks
the set bits in ascending index order; as every iteration touches a distinct
slot, it equals this pointwise map.  (Bits 14 and 15 of the uint16 masks are
never set by the driver.) -/
def commitRegs (cfg hw : Fin 14 → Nat) (writeregs : Nat) : Fin 14 → Nat :=
  fun i => if writeregs.testBit i.val then cfg i else hw i

/-- `__vblank_interrupt`: apply pending/stabilized register changes, the
one-shot blank, and the interlaced-field corrections. -/
def __vblank_interrupt (s : ViState) : ViState :=
  let merge := s.cfg_pending ≠ 0 ∧ s.cfg_refcount = 0
  let writeregs := if merge then s.cfg_raster ||| s.cfg_pending else s.cfg_raster
  let pending1 := if merge then 0 else s.cfg_pending
  let hw1 := commitRegs s.cfg s.hw writeregs
  let hw2 := if s.pending_blank then setReg hw1 9 0 else hw1
  let s1 : ViState := { s with cfg_pending := pending1, hw := hw2, pending_blank := false }
  let ctrl := s1.cfg 0
  if ctrl &&& VI_CTRL_SERRATE ≠ 0 then
    let field := s1.hw 4 &&& 1
    let parms :=
      if writeregs &&& ((1 <<< 13) ||| (1 <<< 2) ||| (1 <<< 0)) ≠ 0 then
        let yScaleReg := s1.cfg 13
        let yoffset0 := (yScaleReg >>> 16) &&& 0x3FF
        let yscale0 := yScaleReg &&& 0xFFFF
        let yoffset1 := yoffset0 + (yscale0 >>> 1)
        -- If yoffset overflows 0.10 fixed point, move whole lines into ORIGIN.
        -- (`bpp_shift` is `(VI_CTRL & VI_CTRL_TYPE) - 1`; for the blank type
        -- this is a shift by -1, undefined behaviour in C, clamped to 0 here.)
        let oo_yo :=
          if yoffset1 > 0x3FF then
            let num_lines := yoffset1 >>> 10
            let bpp_shift := (s1.cfg 0 &&& VI_CTRL_TYPE) - 1
            ((Int.ofNat ((s1.cfg 2 * num_lines) <<< bpp_shift)), yoffset1 &&& 0x3FF)
          else ((0 : Int), yoffset1)
        let new_yscale := (yscale0 &&& 0xFFFF) ||| (oo_yo.2 <<< 16)
        (oo_yo.1, Int.ofNat new_yscale - Int.ofNat yScaleReg)
      else s1.interlacing_parms
    let origin := if field = 0 then add32 (s1.cfg 1) parms.1 else s1.cfg 1
    let yscale := if field = 0 then add32 (s1.cfg 13) parms.2 else s1.cfg 13
    let hw3 := setReg (setReg s1.hw 1 origin) 13 yscale
    let hw4 :=
      if s1.tv_type = TV_MPAL then
        setReg hw3 11 ((hw3 11) ^^^ (VI_V_BURST_SET 11 514 ^^^ VI_V_BURST_SET 14 516))
      else hw3
    { s1 with interlacing_parms := parms, hw := hw4 }
  else s1

/-- `__vi_interrupt` up to (but excluding) the `handler()` call: commit the
shadow line interrupt table if pending and no transaction is open, read the
cursor's callback, advance the cursor (wrapping at the scanline-0 sentinel),
and reprogram `VI_V_INTR` (hw slot 3) with the new cursor's line.  Returns
the state together with the id of the callback to run. -/
def __vi_interrupt_fire (s : ViState) : ViState × Nat :=
  let s :=
    if s.cfg_pending_lineirqs = true ∧ s.cfg_refcount = 0 then
      { s with line_irqs := s.new_line_irqs, cfg_pending_lineirqs := false }
    else s
  let h := (irqAt s.line_irqs s.cur_line_irq).handler
  let cur1 := s.cur_line_irq + 1
  let cur2 := if (irqAt s.line_irqs cur1).line = 0 then 0 else cur1
  ({ s with cur_line_irq := cur2, hw := setReg s.hw 3 (irqAt s.line_irqs cur2).line }, h)

/-- `__vi_interrupt` including the `handler()` call, parameterized by the
behaviour `cb` of the callbacks (`cb` receives the fired callback's id and the
state; the C handler runs after `VI_V_INTR` has been reprogrammed). -/
def __vi_interrupt (cb : Nat → ViState → ViState) (s : ViState) : ViState × Nat :=
  let fired := __vi_interrupt_fire s
  (cb fired.2 fired.1, fired.2)

/-- `n` consecutive firings of `__vi_interrupt`, returning the final state and
the list of callback ids run, in order. -/
def fireMany (cb : Nat → ViState → ViState) : Nat → ViState → ViState × List Nat
  | 0, s => (s, [])
  | n + 1, s =>
    let one := __vi_interrupt cb s
    let rest := fireMany cb n one.1
    (rest.1, one.2 :: rest.2)

/-- `vi_write_begin`. -/
def vi_write_begin (s : ViState) : ViState :=
  { s with cfg_refcount := s.cfg_refcount + 1 }

/-- `vi_write_maybe_flush`: if no transaction is open and the hardware `VI_CTRL`
pixel-type field reads as blank, run `__vblank_interrupt` synchronously.
(`__vi_validate_config` only emits diagnostics and is omitted.) -/
def vi_write_maybe_flush (s : ViState) : ViState :=
  if s.cfg_refcount > 0 then s
  else if (s.hw 0) &&& VI_CTRL_TYPE = VI_CTRL_TYPE_BLANK then __vblank_interrupt s
  else s

/-- `vi_write_end` without its assertion (the successful path). -/
def vi_write_end_core (s : ViState) : ViState :=
  vi_write_maybe_flush { s with cfg_refcount := s.cfg_refcount - 1 }

/-- `vi_write_end`; `none` models the fatal
`assertf(cfg_refcount > 0, "vi_write_end without matching begin")`. -/
def vi_write_end (s : ViState) : Option ViState :=
  if s.cfg_refcount > 0 then some (vi_write_end_core s) else none

/-- `vi_write_idx_masked` without its assertions (the successful path). -/
def vi_write_idx_masked_core (s : ViState) (idx : Fin 14) (wmask value : Nat) : ViState :=
  vi_write_maybe_flush
    { s with cfg := setReg s.cfg idx ((s.cfg idx &&& compl32 wmask) ||| value)
             cfg_pending := s.cfg_pending ||| (1 <<< idx.val) }

/-- `vi_write_idx_masked`; `none` models the fatal assertions
`assert(reg_idx >= 0 && reg_idx < VI_REGISTERS_COUNT)` and
`assert((value & ~wmask) == 0)`. -/
def vi_write_idx_masked (s : ViState) (idx : Nat) (wmask value : Nat) : Option ViState :=
  if h : idx < 14 then
    if value &&& compl32 wmask = 0 then
      some (vi_write_idx_masked_core s ⟨idx, h⟩ wmask value)
    else none
  else none

/-- `vi_write(reg, value)` = `vi_write_masked(reg, 0xFFFFFFFF, value)`; with a
full mask the value assertion always holds, so this is total. -/
def vi_write (s : ViState) (idx : Fin 14) (value : Nat) : ViState :=
  vi_write_idx_masked_core s idx 0xFFFFFFFF value

/-- `vi_stabilize(reg, enable)`. -/
def vi_stabilize (s : ViState) (idx : Fin 14) (enable : Bool) : ViState :=
  if enable then { s with cfg_raster := s.cfg_raster ||| (1 <<< idx.val) }
  else { s with cfg_raster := s.cfg_raster &&& (0xFFFF ^^^ (1 <<< idx.val)) }

/-- `__get_output`: decode the output rectangle from the mirrored
`VI_H_VIDEO` / `VI_V_VIDEO`, as `(x0, y0, x1, y1)`. -/
def __get_output (s : ViState) : Int × Int × Int × Int :=
  let h := s.cfg 9
  let v := s.cfg 10
  (Int.ofNat (h >>> 16), Int.ofNat (v >>> 16), Int.ofNat (h &&& 0xFFFF), Int.ofNat (v &&& 0xFFFF))

/-- `__set_output`: write the output rectangle inside a write transaction. -/
def __set_output (s : ViState) (x0 y0 x1 y1 : Int) : ViState :=
  let s := vi_write_begin s
  let s := vi_write s 9 (VI_H_VIDEO_SET x0 x1)
  let s := vi_write s 10 (VI_V_VIDEO_SET y0 y1)
  vi_write_end_core s

/-- `vi_get_output_bounds`, as `(x0, y0, x1, y1)` (the C call site collects
them as `bounds[0], bounds[2], bounds[1], bounds[3]`). -/
def vi_get_output_bounds (s : ViState) : Int × Int × Int × Int :=
  let hTotalReg := s.cfg 7
  let vTotalReg := s.cfg 6
  let burstReg := s.cfg 5
  let burst_start := (burstReg >>> 20) &&& 0x3FF
  let vsync_height := (burstReg >>> 16) &&& 0xF
  let burst_width := (burstReg >>> 8) &&& 0xFF
  let htotal := ((hTotalReg &&& 0xFFF) + 1) / 4
  let vtotal := (vTotalReg &&& 0x3FF) + 1
  (Int.ofNat (burst_start + burst_width), Int.ofNat vsync_height,
   Int.ofNat htotal, Int.ofNat vtotal - 1)

/-- `vi_set_output`: clip the requested rectangle against the legal bounds
(collapsing to a zero-area rectangle if they do not intersect) and program it. -/
def vi_set_output (s : ViState) (x0 y0 x1 y1 : Int) : ViState :=
  let b := vi_get_output_bounds s
  let bx0 := b.1
  let by0 := b.2.1
  let bx1 := b.2.2.1
  let by1 := b.2.2.2
  if x0 > bx1 ∨ x1 < bx0 ∨ y0 > by1 ∨ y1 < by0 then
    __set_output s 0 0 0 0
  else
    let p1 := if x0 < bx0 then (bx0, x1 + (bx0 - x0)) else (x0, x1)
    let p2 := if p1.2 > bx1 then (p1.1 - (p1.2 - bx1), bx1) else p1
    let q1 := if y0 < by0 then (by0, y1 + (by0 - y0)) else (y0, y1)
    let q2 := if q1.2 > by1 then (q1.1 - (q1.2 - by1), by1) else q1
    __set_output s p2.1 q2.1 p2.2 q2.2

/-- `vi_set_borders`. -/
def vi_set_borders (s : ViState) (b : vi_borders_t) : ViState :=
  let p := vi_presets s.tv_type
  vi_set_output s (p.display_x0 + b.left) (p.display_y0 + b.up)
    (p.display_x0 + p.display_width - b.right)
    (p.display_y0 + p.display_height - b.down)

/-- `vi_get_borders`. -/
def vi_get_borders (s : ViState) : vi_borders_t :=
  let o := __get_output s
  let p := vi_presets s.tv_type
  { left := o.1 - p.display_x0
    right := -(o.2.2.1 - (p.display_x0 + p.display_width))
    up := o.2.1 - p.display_y0
    down := -(o.2.2.2 - (p.display_y0 + p.display_height)) }

/-- `vi_set_origin` without its assertions (the successful path); `phys` is
`PhysicalAddr(buffer)`. -/
def vi_set_origin_core (s : ViState) (phys : Nat) (width bpp : Nat) : ViState :=
  let s := vi_write_begin s
  let s := vi_write s 1 phys
  let s := vi_write s 2 width
  let s := vi_write_idx_masked_core s 0 VI_CTRL_TYPE
    (if bpp = 16 then VI_CTRL_TYPE_16_BPP else VI_CTRL_TYPE_32_BPP)
  vi_write_end_core s

/-- `vi_set_origin`; `none` models the fatal alignment / bpp assertions. -/
def vi_set_origin (s : ViState) (phys : Nat) (width bpp : Nat) : Option ViState :=
  if phys % 8 = 0 ∧ (bpp = 16 ∨ bpp = 32) then some (vi_set_origin_core s phys width bpp)
  else none

/-- First index of the shadow table at which a new entry for `line` is
inserted: the least `i` with `new_line_irqs[i].line == 0 ||
new_line_irqs[i].line > line`; `none` means the scan ran off the table
(the fatal "Too many line interrupts" assertion). -/
def findInsertSlot (t : Fin 16 → LineIrq) (line : Nat) : Option (Fin 16) :=
  (List.finRange 16).find? (fun i => (t i).line == 0 || line < (t i).line)

/-- Index of the shadow entry whose line equals `line` exactly; `none` means
the fatal "Line interrupt %d not found" assertion on removal. -/
def findLineSlot (t : Fin 16 → LineIrq) (line : Nat) : Option (Fin 16) :=
  (List.finRange 16).find? (fun i => (t i).line == line)

/-- The downward shift loop of the insert path: entries above `i` move one
slot up (the last entry falls off), and `e` lands at `i`. -/
def insertSlot (t : Fin 16 → LineIrq) (i : Fin 16) (e : LineIrq) : Fin 16 → LineIrq :=
  fun j =>
    if j.val < i.val then t j
    else if j.val = i.val then e
    else t ⟨j.val - 1, by omega⟩

/-- The upward shift loop of the removal path: entries above `i` move one slot
down and the last slot becomes the zero sentinel. -/
def removeSlot (t : Fin 16 → LineIrq) (i : Fin 16) : Fin 16 → LineIrq :=
  fun j =>
    if j.val < i.val then t j
    else if h : j.val + 1 < 16 then t ⟨j.val + 1, h⟩
    else ⟨0, 0⟩

/-- `vi_set_line_interrupt(line, handler)`: bias the line with `|= 1`, snapshot
the live table into the shadow on the first edit of a batch, then insert
(`handler ≠ 0`) or remove (`handler = 0`, i.e. `NULL`) in the shadow table
only.  `none` models the two fatal assertions (table full / entry not found). -/
def vi_set_line_interrupt (s : ViState) (line : Nat) (handler : Nat) : Option ViState :=
  let line := line ||| 1
  let t0 := if s.cfg_pending_lineirqs then s.new_line_irqs else s.line_irqs
  if handler ≠ 0 then
    match findInsertSlot t0 line with
    | none => none
    | some i =>
      some { s with new_line_irqs := insertSlot t0 i ⟨line, handler⟩
                    cfg_pending_lineirqs := true }
  else
    match findLineSlot t0 line with
    | none => none
    | some i =>
      some { s with new_line_irqs := removeSlot t0 i
                    cfg_pending_lineirqs := true }

/-- `vi_init`.  The calls into `interrupt.c` (`register_VI_handler`,
`set_VI_interrupt(1, VI_V_CURRENT_VBLANK)`) are not part of the sources;
modelled from the spec ("installs the vblank handler as the scheduler's
bootstrap entry"): they record the handler registration and program the
`VI_V_INTR` trigger (hw slot 3) with the vblank line. -/
def vi_init (s : ViState) : ViState :=
  if s.inited then s
  else
    let p := vi_presets s.tv_type
    let s : ViState :=
      { s with inited := true
               cfg := fun _ => 0
               cfg_pending := 0, cfg_raster := 0
               cfg_refcount := 0
               pending_blank := false
               cur_line_irq := 0 }
    let s := vi_write_begin s
    let s := vi_write s 7 p.vi_h_total
    let s := vi_write s 8 p.vi_h_total_leap
    let s := vi_write s 6 p.vi_v_total
    let s := vi_write s 5 p.vi_burst
    let s := vi_write s 11 p.vi_v_burst
    let s := __set_output s p.display_x0 p.display_y0
      (p.display_x0 + p.display_width) (p.display_y0 + p.display_height)
    let ctrl := (if s.bbplayer then VI_PIXEL_ADVANCE_BBPLAYER else VI_PIXEL_ADVANCE_DEFAULT)
      ||| VI_AA_MODE_RESAMPLE
    let s := vi_write s 0 ctrl
    let s : ViState := { s with cfg_pending := (1 <<< 14) - 1 }
    let s := vi_write_end_core s
    let s : ViState :=
      { s with line_irqs := fun i => if i.val = 0 then ⟨VI_V_CURRENT_VBLANK, 1⟩ else ⟨0, 0⟩
               handler_registered := true
               hw := setReg s.hw 3 VI_V_CURRENT_VBLANK
               vi_irq_enabled := true }
    s

/-! ### Basic facts about the embedding -/

/-- Reading back a just-updated register slot. -/
theorem setReg_at (f : Fin 14 → Nat) (i : Fin 14) (v : Nat) : setReg f i v i = v := by
  simp [setReg]

/-- Reading another slot after an update. -/
theorem setReg_ne (f : Fin 14 → Nat) (i j : Fin 14) (v : Nat) (h : j ≠ i) :
    setReg f i v j = f j := by
  simp [setReg, h]

/-- An empty write set commits nothing. -/
theorem commitRegs_zero (cfg hw : Fin 14 → Nat) : commitRegs cfg hw 0 = hw := by
  funext i
  simp [commitRegs, Nat.zero_testBit]

/-- `__vblank_interrupt` never touches the register mirror, the transaction
depth, the stabilized mask, the line interrupt tables or the cursor. -/
theorem __vblank_interrupt_frame (s : ViState) :
    (__vblank_interrupt s).cfg = s.cfg
    ∧ (__vblank_interrupt s).cfg_refcount = s.cfg_refcount
    ∧ (__vblank_interrupt s).cfg_raster = s.cfg_raster
    ∧ (__vblank_interrupt s).line_irqs = s.line_irqs
    ∧ (__vblank_interrupt s).new_line_irqs = s.new_line_irqs
    ∧ (__vblank_interrupt s).cur_line_irq = s.cur_line_irq
    ∧ (__vblank_interrupt s).cfg_pending_lineirqs = s.cfg_pending_lineirqs
    ∧ (__vblank_interrupt s).inited = s.inited
    ∧ (__vblank_interrupt s).tv_type = s.tv_type := by
  unfold __vblank_interrupt
  dsimp only
  split <;> simp

/-- With interlacing (serrate) off in the mirrored `VI_CTRL`, one vblank-apply
firing merges the pending mask (when no transaction is open) with the
stabilized mask, copies exactly those mirror slots to the hardware latches,
applies the one-shot blank, and changes nothing else. -/
theorem __vblank_interrupt_of_no_serrate (s : ViState)
    (h2 : s.cfg 0 &&& VI_CTRL_SERRATE = 0) :
    __vblank_interrupt s =
      { s with
        cfg_pending := if s.cfg_pending ≠ 0 ∧ s.cfg_refcount = 0 then 0 else s.cfg_pending
        hw :=
          (let w := if s.cfg_pending ≠ 0 ∧ s.cfg_refcount = 0
                    then s.cfg_raster ||| s.cfg_pending else s.cfg_raster
           let h1 := commitRegs s.cfg s.hw w
           if s.pending_blank then setReg h1 9 0 else h1)
        pending_blank := false } := by
  unfold __vblank_interrupt
  dsimp only
  rw [if_neg]
  simp [h2]

/-- A flush attempted while a transaction is open does nothing. -/
theorem vi_write_maybe_flush_of_open (s : ViState) (h : 0 < s.cfg_refcount) :
    vi_write_maybe_flush s = s := by
  unfold vi_write_maybe_flush
  rw [if_pos h]

/-- A flush at depth zero while the hardware `VI_CTRL` pixel type is blank
runs the vblank-apply routine synchronously. -/
theorem vi_write_maybe_flush_of_blank (s : ViState) (h0 : s.cfg_refcount = 0)
    (h : s.hw 0 &&& VI_CTRL_TYPE = VI_CTRL_TYPE_BLANK) :
    vi_write_maybe_flush s = __vblank_interrupt s := by
  unfold vi_write_maybe_flush
  rw [if_neg (by omega), if_pos h]

/-- A flush attempted while the hardware `VI_CTRL` pixel type is not blank
does nothing. -/
theorem vi_write_maybe_flush_of_active (s : ViState)
    (h : s.hw 0 &&& VI_CTRL_TYPE ≠ VI_CTRL_TYPE_BLANK) :
    vi_write_maybe_flush s = s := by
  unfold vi_write_maybe_flush
  simp [h]

/-- The flush decision never touches the register mirror. -/
theorem vi_write_maybe_flush_cfg (s : ViState) :
    (vi_write_maybe_flush s).cfg = s.cfg ∧
    (vi_write_maybe_flush s).cfg_refcount = s.cfg_refcount := by
  unfold vi_write_maybe_flush
  split
  · exact ⟨rfl, rfl⟩
  split
  · exact ⟨(__vblank_interrupt_frame s).1, (__vblank_interrupt_frame s).2.1⟩
  · exact ⟨rfl, rfl⟩

/-- The flush decision and the masked-write path never touch `inited`. -/
theorem vi_write_maybe_flush_inited (s : ViState) :
    (vi_write_maybe_flush s).inited = s.inited := by
  unfold vi_write_maybe_flush
  split
  · rfl
  split
  · exact (__vblank_interrupt_frame s).2.2.2.2.2.2.2.1
  · rfl

/-- `vi_write_idx_masked_core` never touches `inited`. -/
theorem vi_write_idx_masked_core_inited (s : ViState) (idx : Fin 14) (m v : Nat) :
    (vi_write_idx_masked_core s idx m v).inited = s.inited := by
  unfold vi_write_idx_masked_core
  rw [vi_write_maybe_flush_inited]

/-- `vi_write_end_core` never touches `inited`. -/
theorem vi_write_end_core_inited (s : ViState) :
    (vi_write_end_core s).inited = s.inited := by
  unfold vi_write_end_core
  rw [vi_write_maybe_flush_inited]

/-- `__set_output` never touches `inited`. -/
theorem __set_output_inited (s : ViState) (x0 y0 x1 y1 : Int) :
    (__set_output s x0 y0 x1 y1).inited = s.inited := by
  unfold __set_output vi_write vi_write_begin
  rw [vi_write_end_core_inited, vi_write_idx_masked_core_inited, vi_write_idx_masked_core_inited]

/-- `vi_write` never touches `inited`. -/
theorem vi_write_inited (s : ViState) (idx : Fin 14) (v : Nat) :
    (vi_write s idx v).inited = s.inited := by
  unfold vi_write
  rw [vi_write_idx_masked_core_inited]

/-- After any call, `vi_init` leaves the `inited` guard set. -/
theorem vi_init_inited (s : ViState) : (vi_init s).inited = true := by
  unfold vi_init
  split
  · next h => exact h
  simp only [vi_write_end_core_inited, vi_write_inited, __set_output_inited,
    vi_write_idx_masked_core_inited, vi_write_begin]

/-- Claim C10: `vi_init` is idempotent.  After the first call the `inited`
guard is set, and every subsequent call returns the state unchanged — no
driver state (mirror, masks, tables, cursor, preset), no hardware register
and no interrupt registration is modified again. -/
theorem c10_vi_init_idempotent (s : ViState) :
    vi_init (vi_init s) = vi_init s ∧ (vi_init s).inited = true := by
  refine ⟨?_, vi_init_inited s⟩
  have h := vi_init_inited s
  generalize hu : vi_init s = u at h ⊢
  unfold vi_init
  rw [if_pos h]

/-- Claim C5: on a vblank-apply firing with no open transaction (and with the
one-shot blank and interlacing inactive, which are the separate steps (3) and
(4) of the routine), the write set is the OR of the pending and stabilized
masks; every slot in it gets its mirror value copied to the hardware latch,
the pending mask is fully cleared while the stabilized mask is untouched, and
on a subsequent firing every stabilized slot is written again. -/
theorem c5_vblank_write_set (s : ViState)
    (h0 : s.cfg_refcount = 0) (h1 : s.pending_blank = false)
    (h2 : s.cfg 0 &&& VI_CTRL_SERRATE = 0) :
    ((__vblank_interrupt s).hw = commitRegs s.cfg s.hw (s.cfg_pending ||| s.cfg_raster))
    ∧ (__vblank_interrupt s).cfg_pending = 0
    ∧ (__vblank_interrupt s).cfg_raster = s.cfg_raster
    ∧ (__vblank_interrupt s).cfg = s.cfg
    ∧ (∀ i : Fin 14, s.cfg_raster.testBit i.val →
        (__vblank_interrupt (__vblank_interrupt s)).hw i = s.cfg i) := by
  have hmain := __vblank_interrupt_of_no_serrate s h2
  have hfst : (__vblank_interrupt s).hw = commitRegs s.cfg s.hw (s.cfg_pending ||| s.cfg_raster)
      ∧ (__vblank_interrupt s).cfg_pending = 0 := by
    rw [hmain]
    by_cases hp : s.cfg_pending = 0 <;> simp [hp, h0, h1, Nat.lor_comm]
  refine ⟨hfst.1, hfst.2, ?_, ?_, ?_⟩
  · rw [hmain]
  · rw [hmain]
  · intro i hi
    have h2' : (__vblank_interrupt s).cfg 0 &&& VI_CTRL_SERRATE = 0 := by
      rw [(__vblank_interrupt_frame s).1]; exact h2
    rw [__vblank_interrupt_of_no_serrate _ h2']
    have hpb : (__vblank_interrupt s).pending_blank = false := by
      rw [hmain]
    simp only [hfst.2, hpb, (__vblank_interrupt_frame s).1, (__vblank_interrupt_frame s).2.2.1]
    simp [commitRegs, hi]

/-- Power-on state used to build concrete scenarios: everything zeroed, NTSC
console, not an iQue. -/
def vs0 : ViState :=
  { cfg := fun _ => 0, hw := fun _ => 0, cfg_pending := 0, cfg_raster := 0
    cfg_pending_lineirqs := false, cfg_refcount := 0, pending_blank := false
    line_irqs := fun _ => ⟨0, 0⟩, new_line_irqs := fun _ => ⟨0, 0⟩, cur_line_irq := 0
    interlacing_parms := (0, 0), inited := false, handler_registered := false
    vi_irq_enabled := false, tv_type := TV_NTSC, bbplayer := false }

/-- State for the C1 counterexample: slot 2 (`VI_WIDTH`) is stabilized, a
write transaction is opened, and `0xAB` is written to slot 2 inside it. -/
def c1state : ViState :=
  vi_write_idx_masked_core (vi_write_begin (vi_stabilize vs0 2 true)) 2 0xFFFFFFFF 0xAB

/-- Claim C1, counterexample: a value written to a stabilized slot while the
transaction is still open (depth 1) does reach the physical register at the
next vblank-apply firing, because the stabilized mask is committed regardless
of the transaction depth. -/
theorem c1_counterexample :
    c1state.cfg_refcount = 1
    ∧ c1state.hw 2 = 0
    ∧ c1state.cfg 2 = 0xAB
    ∧ (__vblank_interrupt c1state).hw 2 = 0xAB
    ∧ (__vblank_interrupt c1state).cfg_refcount = 1 := by
  decide

/-- Claim C1 as amended: while a transaction is open, a masked write touches
only the mirror and the pending mask (the flush decision does nothing), and a
vblank-apply firing commits nothing to hardware and leaves the pending mask
intact — provided no slot is stabilized, no one-shot blank is queued and
interlacing is off (stabilized slots, the blank and the interlacing
adjustments are still written even while a transaction is open). -/
theorem c1_amended (s : ViState) (idx : Fin 14) (wmask value : Nat)
    (hopen : 0 < s.cfg_refcount)
    (hraster : s.cfg_raster = 0) (hblank : s.pending_blank = false)
    (hserr : s.cfg 0 &&& VI_CTRL_SERRATE = 0) :
    ((vi_write_idx_masked_core s idx wmask value).hw = s.hw)
    ∧ ((vi_write_idx_masked_core s idx wmask value).cfg_refcount = s.cfg_refcount)
    ∧ ((vi_write_idx_masked_core s idx wmask value).cfg
        = setReg s.cfg idx ((s.cfg idx &&& compl32 wmask) ||| value))
    ∧ ((vi_write_idx_masked_core s idx wmask value).cfg_pending
        = s.cfg_pending ||| (1 <<< idx.val))
    ∧ __vblank_interrupt s = s := by
  have hm : vi_write_idx_masked_core s idx wmask value
      = { s with cfg := setReg s.cfg idx ((s.cfg idx &&& compl32 wmask) ||| value)
                 cfg_pending := s.cfg_pending ||| (1 <<< idx.val) } := by
    unfold vi_write_idx_masked_core
    exact vi_write_maybe_flush_of_open _ hopen
  refine ⟨by rw [hm], by rw [hm], by rw [hm], by rw [hm], ?_⟩
  rw [__vblank_interrupt_of_no_serrate s hserr]
  have hc : ¬(s.cfg_pending ≠ 0 ∧ s.cfg_refcount = 0) := by omega
  cases s
  simp_all [commitRegs_zero]
  rw [if_neg (by omega), commitRegs_zero]

/-- Full-mask write value simplification: `(x & ~0xFFFFFFFF) | v = v`. -/
theorem write_val (x v : Nat) : (x &&& compl32 0xFFFFFFFF) ||| v = v := by
  have h : compl32 0xFFFFFFFF = 0 := by decide
  rw [h]
  simp

/-- The flush decision touches neither the mirror nor the bookkeeping that is
not owned by the vblank routine. -/
theorem vi_write_maybe_flush_frame (s : ViState) :
    (vi_write_maybe_flush s).cfg = s.cfg
    ∧ (vi_write_maybe_flush s).cfg_refcount = s.cfg_refcount
    ∧ (vi_write_maybe_flush s).cfg_raster = s.cfg_raster
    ∧ (vi_write_maybe_flush s).line_irqs = s.line_irqs
    ∧ (vi_write_maybe_flush s).new_line_irqs = s.new_line_irqs
    ∧ (vi_write_maybe_flush s).cur_line_irq = s.cur_line_irq
    ∧ (vi_write_maybe_flush s).cfg_pending_lineirqs = s.cfg_pending_lineirqs
    ∧ (vi_write_maybe_flush s).tv_type = s.tv_type := by
  unfold vi_write_maybe_flush
  split
  · exact ⟨rfl, rfl, rfl, rfl, rfl, rfl, rfl, rfl⟩
  split
  · have h := __vblank_interrupt_frame s
    exact ⟨h.1, h.2.1, h.2.2.1, h.2.2.2.1, h.2.2.2.2.1, h.2.2.2.2.2.1, h.2.2.2.2.2.2.1,
      h.2.2.2.2.2.2.2.2⟩
  · exact ⟨rfl, rfl, rfl, rfl, rfl, rfl, rfl, rfl⟩

/-- A `vi_write` issued while a transaction is open is a pure mirror/pending
update. -/
theorem vi_write_of_open (s : ViState) (idx : Fin 14) (v : Nat) (h : 0 < s.cfg_refcount) :
    vi_write s idx v =
      { s with cfg := setReg s.cfg idx v
               cfg_pending := s.cfg_pending ||| (1 <<< idx.val) } := by
  unfold vi_write vi_write_idx_masked_core
  rw [write_val]
  exact vi_write_maybe_flush_of_open _ h

/-- `vi_write` leaves the transaction depth unchanged. -/
theorem vi_write_cfg_refcount (s : ViState) (idx : Fin 14) (v : Nat) :
    (vi_write s idx v).cfg_refcount = s.cfg_refcount := by
  unfold vi_write vi_write_idx_masked_core
  rw [(vi_write_maybe_flush_frame _).2.1]

/-- `__set_output` is the two masked writes followed by the flush decision at
the caller's transaction depth. -/
theorem __set_output_eq (s : ViState) (x0 y0 x1 y1 : Int) :
    __set_output s x0 y0 x1 y1 =
      vi_write_maybe_flush
        { s with cfg := setReg (setReg s.cfg 9 (VI_H_VIDEO_SET x0 x1)) 10 (VI_V_VIDEO_SET y0 y1)
                 cfg_pending := (s.cfg_pending ||| (1 <<< 9)) ||| (1 <<< 10) } := by
  unfold __set_output vi_write_end_core vi_write_begin
  dsimp only
  rw [vi_write_of_open _ _ _ (by rw [vi_write_cfg_refcount]; exact Nat.succ_pos _)]
  rw [vi_write_of_open _ _ _ (Nat.succ_pos _)]
  rfl

/-- State for the C2 counterexample: VI actively displaying in 16 bpp
(hardware `VI_CTRL` type = `0b10`), live scanline counter sampled at the
vblank line 2 (inside the non-active window), no open transaction. -/
def c2state : ViState :=
  { vs0 with hw := setReg (setReg (fun _ => 0) 0 VI_CTRL_TYPE_16_BPP) 4 VI_V_CURRENT_VBLANK }

/-- Claim C2, counterexample: with the unit inside its non-active window
(live scanline = 2, the vblank line) but displaying (hardware CTRL type is
16 bpp, not blank), a masked write at transaction depth zero does not invoke
the vblank-apply routine: no hardware latch changes and the slot stays
pending.  The flush decision never reads the scanline counter — it tests the
hardware `VI_CTRL` pixel-type field instead. -/
theorem c2_counterexample :
    c2state.cfg_refcount = 0
    ∧ c2state.hw 4 = VI_V_CURRENT_VBLANK
    ∧ c2state.hw 0 &&& VI_CTRL_TYPE = VI_CTRL_TYPE_16_BPP
    ∧ (∀ i : Fin 14, (vi_write_idx_masked_core c2state 1 0xFFFFFFFF 0x100).hw i = c2state.hw i)
    ∧ (vi_write_idx_masked_core c2state 1 0xFFFFFFFF 0x100).cfg_pending = 2
    ∧ (vi_write_idx_masked_core c2state 1 0xFFFFFFFF 0x100).cfg 1 = 0x100 := by
  decide

/-- Claim C2 as amended: when a masked write or `vi_write_end` runs at
transaction depth zero, the flush decision reads the hardware `VI_CTRL`
pixel-type field (not the scanline counter): if the type is blank it runs the
vblank-apply routine synchronously, otherwise it leaves the changes pending
for the next interrupt, regardless of the current scanline. -/
theorem c2_amended (s : ViState) (idx : Fin 14) (wmask value : Nat)
    (h0 : s.cfg_refcount = 0) :
    (s.hw 0 &&& VI_CTRL_TYPE ≠ VI_CTRL_TYPE_BLANK →
      (vi_write_idx_masked_core s idx wmask value).hw = s.hw
      ∧ (vi_write_idx_masked_core s idx wmask value).cfg_pending
          = s.cfg_pending ||| (1 <<< idx.val))
    ∧ (s.hw 0 &&& VI_CTRL_TYPE = VI_CTRL_TYPE_BLANK →
      vi_write_idx_masked_core s idx wmask value =
        __vblank_interrupt
          { s with cfg := setReg s.cfg idx ((s.cfg idx &&& compl32 wmask) ||| value)
                   cfg_pending := s.cfg_pending ||| (1 <<< idx.val) })
    ∧ (∀ t : ViState, t.cfg_refcount = 1 →
        (t.hw 0 &&& VI_CTRL_TYPE ≠ VI_CTRL_TYPE_BLANK →
          vi_write_end t = some { t with cfg_refcount := 0 })
        ∧ (t.hw 0 &&& VI_CTRL_TYPE = VI_CTRL_TYPE_BLANK →
          vi_write_end t = some (__vblank_interrupt { t with cfg_refcount := 0 }))) := by
  refine ⟨?_, ?_, ?_⟩
  · intro h
    unfold vi_write_idx_masked_core
    rw [vi_write_maybe_flush_of_active
      { s with cfg := setReg s.cfg idx ((s.cfg idx &&& compl32 wmask) ||| value)
               cfg_pending := s.cfg_pending ||| (1 <<< idx.val) } (by exact h)]
    exact ⟨rfl, rfl⟩
  · intro h
    unfold vi_write_idx_masked_core
    exact vi_write_maybe_flush_of_blank _ (by exact h0) (by exact h)
  · intro t ht
    have hend : vi_write_end t = some (vi_write_maybe_flush { t with cfg_refcount := 0 }) := by
      unfold vi_write_end vi_write_end_core
      rw [if_pos (by omega), ht]
    constructor
    · intro h
      rw [hend, vi_write_maybe_flush_of_active { t with cfg_refcount := 0 } (by exact h)]
    · intro h
      rw [hend, vi_write_maybe_flush_of_blank { t with cfg_refcount := 0 } rfl (by exact h)]

/-- Witness for the amended C2 at a concrete input: the all-blank power-on
state, writing value 7 to slot 3 with a full mask at depth zero. -/
theorem c2_amended_witness :
    vs0.cfg_refcount = 0
    ∧ ((vs0.hw 0 &&& VI_CTRL_TYPE ≠ VI_CTRL_TYPE_BLANK →
        (vi_write_idx_masked_core vs0 3 0xFFFFFFFF 7).hw = vs0.hw
        ∧ (vi_write_idx_masked_core vs0 3 0xFFFFFFFF 7).cfg_pending
            = vs0.cfg_pending ||| (1 <<< (3 : Fin 14).val))
      ∧ (vs0.hw 0 &&& VI_CTRL_TYPE = VI_CTRL_TYPE_BLANK →
        vi_write_idx_masked_core vs0 3 0xFFFFFFFF 7 =
          __vblank_interrupt
            { vs0 with cfg := setReg vs0.cfg 3 ((vs0.cfg 3 &&& compl32 0xFFFFFFFF) ||| 7)
                       cfg_pending := vs0.cfg_pending ||| (1 <<< (3 : Fin 14).val) })
      ∧ (∀ t : ViState, t.cfg_refcount = 1 →
          (t.hw 0 &&& VI_CTRL_TYPE ≠ VI_CTRL_TYPE_BLANK →
            vi_write_end t = some { t with cfg_refcount := 0 })
          ∧ (t.hw 0 &&& VI_CTRL_TYPE = VI_CTRL_TYPE_BLANK →
            vi_write_end t = some (__vblank_interrupt { t with cfg_refcount := 0 })))) :=
  ⟨by decide, c2_amended vs0 3 0xFFFFFFFF 7 (by decide)⟩

/-- Witness state for the amended C1: one open transaction on the power-on
state, nothing stabilized. -/
def c1w : ViState := vi_write_begin vs0

/-- Witness for the amended C1 at a concrete input: inside the open
transaction, writing 5 to slot 2 touches only mirror and pending mask, and a
vblank firing is a no-op. -/
theorem c1_amended_witness :
    0 < c1w.cfg_refcount ∧ c1w.cfg_raster = 0 ∧ c1w.pending_blank = false
    ∧ c1w.cfg 0 &&& VI_CTRL_SERRATE = 0
    ∧ (((vi_write_idx_masked_core c1w 2 0xFFFFFFFF 5).hw = c1w.hw)
      ∧ ((vi_write_idx_masked_core c1w 2 0xFFFFFFFF 5).cfg_refcount = c1w.cfg_refcount)
      ∧ ((vi_write_idx_masked_core c1w 2 0xFFFFFFFF 5).cfg
          = setReg c1w.cfg 2 ((c1w.cfg 2 &&& compl32 0xFFFFFFFF) ||| 5))
      ∧ ((vi_write_idx_masked_core c1w 2 0xFFFFFFFF 5).cfg_pending
          = c1w.cfg_pending ||| (1 <<< (2 : Fin 14).val))
      ∧ __vblank_interrupt c1w = c1w) :=
  ⟨by decide, by decide, by decide, by decide,
    c1_amended c1w 2 0xFFFFFFFF 5 (by decide) (by decide) (by decide) (by decide)⟩

/-- Witness state for C5: pending bit on slot 1, stabilized bit on slot 2,
no transaction open. -/
def c5s : ViState := { vs0 with cfg_pending := 2, cfg_raster := 4 }

/-- Witness for C5 at a concrete input. -/
theorem c5_witness :
    c5s.cfg_refcount = 0 ∧ c5s.pending_blank = false ∧ c5s.cfg 0 &&& VI_CTRL_SERRATE = 0
    ∧ (((__vblank_interrupt c5s).hw = commitRegs c5s.cfg c5s.hw (c5s.cfg_pending ||| c5s.cfg_raster))
      ∧ (__vblank_interrupt c5s).cfg_pending = 0
      ∧ (__vblank_interrupt c5s).cfg_raster = c5s.cfg_raster
      ∧ (__vblank_interrupt c5s).cfg = c5s.cfg
      ∧ (∀ i : Fin 14, c5s.cfg_raster.testBit i.val →
          (__vblank_interrupt (__vblank_interrupt c5s)).hw i = c5s.cfg i)) :=
  ⟨by decide, by decide, by decide,
    c5_vblank_write_set c5s (by decide) (by decide) (by decide)⟩

/-- Claim C8: a requested output rectangle that does not intersect the legal
bounds at all makes `vi_set_output` program the zero-area rectangle
`(0,0,0,0)` instead of failing or writing an illegal value. -/
theorem c8_out_of_bounds (s : ViState) (x0 y0 x1 y1 : Int)
    (hmiss : x0 > (vi_get_output_bounds s).2.2.1 ∨ x1 < (vi_get_output_bounds s).1
      ∨ y0 > (vi_get_output_bounds s).2.2.2 ∨ y1 < (vi_get_output_bounds s).2.1) :
    (vi_set_output s x0 y0 x1 y1).cfg 9 = 0
    ∧ (vi_set_output s x0 y0 x1 y1).cfg 10 = 0
    ∧ __get_output (vi_set_output s x0 y0 x1 y1) = (0, 0, 0, 0) := by
  have hout : vi_set_output s x0 y0 x1 y1 = __set_output s 0 0 0 0 := by
    unfold vi_set_output
    dsimp only
    rw [if_pos hmiss]
  have hcfg9 : (vi_set_output s x0 y0 x1 y1).cfg 9 = 0 := by
    rw [hout, __set_output_eq, (vi_write_maybe_flush_frame _).1]
    show setReg (setReg s.cfg 9 (VI_H_VIDEO_SET 0 0)) 10 (VI_V_VIDEO_SET 0 0) 9 = 0
    rw [setReg_ne _ _ _ _ (by decide), setReg_at]
    decide
  have hcfg10 : (vi_set_output s x0 y0 x1 y1).cfg 10 = 0 := by
    rw [hout, __set_output_eq, (vi_write_maybe_flush_frame _).1]
    show setReg (setReg s.cfg 9 (VI_H_VIDEO_SET 0 0)) 10 (VI_V_VIDEO_SET 0 0) 10 = 0
    rw [setReg_at]
    decide
  refine ⟨hcfg9, hcfg10, ?_⟩
  unfold __get_output
  rw [hcfg9, hcfg10]
  decide

/-- Witness for C8 at a concrete input: on the initialized NTSC state the
legal horizontal bound starts at 96; requesting the rectangle
(10,100)-(50,200), entirely to the left of it, collapses the window. -/
def vsN : ViState := vi_init vs0

/-- Witness for C8. -/
theorem c8_witness :
    (10 > (vi_get_output_bounds vsN).2.2.1 ∨ 50 < (vi_get_output_bounds vsN).1
      ∨ 100 > (vi_get_output_bounds vsN).2.2.2 ∨ 200 < (vi_get_output_bounds vsN).2.1)
    ∧ ((vi_set_output vsN 10 100 50 200).cfg 9 = 0
      ∧ (vi_set_output vsN 10 100 50 200).cfg 10 = 0
      ∧ __get_output (vi_set_output vsN 10 100 50 200) = (0, 0, 0, 0)) :=
  ⟨by decide, c8_out_of_bounds vsN 10 100 50 200 (by decide)⟩

/-- State for C6: shadow table already active (edits pending) holding the
vblank entry (line 2) and a scheduled entry at line 101. -/
def c6state : ViState :=
  { vs0 with cfg_pending_lineirqs := true
             new_line_irqs := fun i =>
               if i.val = 0 then ⟨2, 1⟩ else if i.val = 1 then ⟨101, 5⟩ else ⟨0, 0⟩ }

/-- Claim C6, counterexample: scheduling line 101 again (same biased scanline
as the existing shadow entry) does NOT trigger a fatal assertion — the
request succeeds and a second entry with line 101 is inserted right after the
existing one.  The insertion scan (`line == 0 || line > request`) walks past
an equal entry, and the only assertion in the insert path is the
capacity check. -/
theorem c6_counterexample :
    (c6state.new_line_irqs 1).line = 101
    ∧ (vi_set_line_interrupt c6state 101 7).isSome = true
    ∧ ((vi_set_line_interrupt c6state 101 7).map
        (fun t => ((t.new_line_irqs 1).line, (t.new_line_irqs 2).line, (t.new_line_irqs 2).handler)))
        = some (101, 101, 7) := by
  decide

/-- Claim C6 as amended: a schedule request whose biased scanline equals an
entry already in the shadow table is accepted; the new entry is inserted at
the first slot whose line is zero or greater than the request, leaving the
existing equal-line entry in place, so the table ends up with two entries of
the same scanline.  No assertion fires (only capacity exhaustion is fatal). -/
theorem c6_amended (s : ViState) (l h : Nat) (j i : Fin 16)
    (hflag : s.cfg_pending_lineirqs = true)
    (hh : h ≠ 0)
    (hj : (s.new_line_irqs j).line = l ||| 1)
    (hfind : findInsertSlot s.new_line_irqs (l ||| 1) = some i)
    (hji : j.val < i.val) :
    vi_set_line_interrupt s l h =
      some { s with new_line_irqs := insertSlot s.new_line_irqs i ⟨l ||| 1, h⟩
                    cfg_pending_lineirqs := true }
    ∧ insertSlot s.new_line_irqs i ⟨l ||| 1, h⟩ j = s.new_line_irqs j
    ∧ (insertSlot s.new_line_irqs i ⟨l ||| 1, h⟩ j).line = l ||| 1
    ∧ insertSlot s.new_line_irqs i ⟨l ||| 1, h⟩ i = ⟨l ||| 1, h⟩ := by
  have h2 : insertSlot s.new_line_irqs i ⟨l ||| 1, h⟩ j = s.new_line_irqs j := by
    unfold insertSlot
    rw [if_pos hji]
  refine ⟨?_, h2, by rw [h2, hj], ?_⟩
  · unfold vi_set_line_interrupt
    dsimp only
    rw [hflag]
    simp only [if_true, hh, ite_true, ne_eq, not_false_iff]
    rw [hfind]
  · unfold insertSlot
    rw [if_neg (lt_irrefl _), if_pos rfl]

/-- Witness for the amended C6, at the concrete duplicate-schedule input. -/
theorem c6_amended_witness :
    c6state.cfg_pending_lineirqs = true
    ∧ (7 : Nat) ≠ 0
    ∧ (c6state.new_line_irqs 1).line = 101 ||| 1
    ∧ findInsertSlot c6state.new_line_irqs (101 ||| 1) = some 2
    ∧ (1 : Fin 16).val < (2 : Fin 16).val
    ∧ (vi_set_line_interrupt c6state 101 7 =
        some { c6state with new_line_irqs := insertSlot c6state.new_line_irqs 2 ⟨101 ||| 1, 7⟩
                            cfg_pending_lineirqs := true }
      ∧ insertSlot c6state.new_line_irqs 2 ⟨101 ||| 1, 7⟩ 1 = c6state.new_line_irqs 1
      ∧ (insertSlot c6state.new_line_irqs 2 ⟨101 ||| 1, 7⟩ 1).line = 101 ||| 1
      ∧ insertSlot c6state.new_line_irqs 2 ⟨101 ||| 1, 7⟩ 2 = ⟨101 ||| 1, 7⟩) :=
  ⟨by decide, by decide, by decide, by decide, by decide,
    c6_amended c6state 101 7 1 2 (by decide) (by decide) (by decide) (by decide) (by decide)⟩

/-- State for C4: live table holds the vblank entry (2), plus entries at
lines 301 and 401; the cursor is at index 2 — i.e. we are mid-frame, the
301 callback has fired and line 401 is armed next.  No shadow edit pending. -/
def c4state : ViState :=
  { vs0 with line_irqs := fun i =>
               if i.val = 0 then ⟨2, 1⟩ else if i.val = 1 then ⟨301, 2⟩
               else if i.val = 2 then ⟨401, 3⟩ else ⟨0, 0⟩
             cur_line_irq := 2 }

/-- The C4 state right after cancelling line 301 mid-frame. -/
def c4cancel : ViState := (vi_set_line_interrupt c4state 301 0).getD c4state

/-- Claim C4, divergence of the code from its own comment: the cancel itself
mutates only the shadow (live table and cursor untouched, as the claim says),
but the interrupt handler commits the shadow at the *next firing of any
entry* — here the mid-frame line-401 firing — not only at the start of a
frame: the live table shifts under the cursor, the fired callback is the
NULL sentinel handler (id 0) instead of handler 3, and the cancellation has
taken effect in the very same frame.  Only the depth-zero guard of the claim
holds: with an open transaction the commit does not happen. -/
theorem c4_code_divergence :
    c4state.cur_line_irq = 2
    ∧ c4state.line_irqs 2 = ⟨401, 3⟩
    ∧ (vi_set_line_interrupt c4state 301 0).isSome = true
    ∧ (∀ i : Fin 16, c4cancel.line_irqs i = c4state.line_irqs i)
    ∧ c4cancel.cur_line_irq = 2
    ∧ c4cancel.cfg_pending_lineirqs = true
    ∧ (__vi_interrupt_fire c4cancel).2 = 0
    ∧ (__vi_interrupt_fire c4cancel).1.line_irqs 1 = ⟨401, 3⟩
    ∧ (__vi_interrupt_fire c4cancel).1.cfg_pending_lineirqs = false
    ∧ (__vi_interrupt_fire { c4cancel with cfg_refcount := 1 }).1.line_irqs 1 = ⟨301, 2⟩ := by
  decide

/-- Low (masked) bits of a masked-write result: writing `v` (with `v` inside
the 2-bit type mask) sets exactly those bits. -/
theorem land_low_bits (a v : Nat) (hv : v < 4) :
    ((a &&& compl32 3) ||| v) &&& 3 = v := by
  apply Nat.eq_of_testBit_eq
  intro i
  have h3 : (3 : Nat).testBit i = decide (i < 2) := by
    have h : (3 : Nat) = 2 ^ 2 - 1 := by norm_num
    rw [h, Nat.testBit_two_pow_sub_one]
  have hF : (0xFFFFFFFF : Nat).testBit i = decide (i < 32) := by
    have h : (0xFFFFFFFF : Nat) = 2 ^ 32 - 1 := by norm_num
    rw [h, Nat.testBit_two_pow_sub_one]
  simp only [Nat.testBit_land, Nat.testBit_lor, compl32, Nat.testBit_xor, h3, hF]
  by_cases h2 : i < 2
  · simp [h2, (by omega : i < 32)]
  · have hv' : v.testBit i = false := by
      apply Nat.testBit_lt_two_pow
      calc v < 4 := hv
        _ = 2 ^ 2 := by norm_num
        _ ≤ 2 ^ i := Nat.pow_le_pow_right (by norm_num) (by omega)
    simp [h2, hv']

/-- High (unmasked) bits of a masked-write result are untouched. -/
theorem land_high_bits (a v : Nat) (hv : v < 4) :
    ((a &&& compl32 3) ||| v) &&& compl32 3 = a &&& compl32 3 := by
  apply Nat.eq_of_testBit_eq
  intro i
  have h3 : (3 : Nat).testBit i = decide (i < 2) := by
    have h : (3 : Nat) = 2 ^ 2 - 1 := by norm_num
    rw [h, Nat.testBit_two_pow_sub_one]
  have hF : (0xFFFFFFFF : Nat).testBit i = decide (i < 32) := by
    have h : (0xFFFFFFFF : Nat) = 2 ^ 32 - 1 := by norm_num
    rw [h, Nat.testBit_two_pow_sub_one]
  simp only [Nat.testBit_land, Nat.testBit_lor, compl32, Nat.testBit_xor, h3, hF]
  by_cases h2 : i < 2
  · simp [h2, (by omega : i < 32)]
  · have hv' : v.testBit i = false := by
      apply Nat.testBit_lt_two_pow
      calc v < 4 := hv
        _ = 2 ^ 2 := by norm_num
        _ ≤ 2 ^ i := Nat.pow_le_pow_right (by norm_num) (by omega)
    by_cases h32 : i < 32 <;> simp [h2, h32, hv']

/-- `vi_set_origin` on an active VI (hardware CTRL type not blank) is the
three writes — ORIGIN, WIDTH, and the TYPE field of CTRL — with their pending
bits, and nothing else. -/
theorem vi_set_origin_core_eq (s : ViState) (phys width bpp : Nat)
    (hactive : s.hw 0 &&& VI_CTRL_TYPE ≠ VI_CTRL_TYPE_BLANK) :
    vi_set_origin_core s phys width bpp =
      { s with cfg := setReg (setReg (setReg s.cfg 1 phys) 2 width) 0
                 ((s.cfg 0 &&& compl32 VI_CTRL_TYPE) |||
                   (if bpp = 16 then VI_CTRL_TYPE_16_BPP else VI_CTRL_TYPE_32_BPP))
               cfg_pending := ((s.cfg_pending ||| (1 <<< 1)) ||| (1 <<< 2)) ||| (1 <<< 0) } := by
  have st1 : vi_write (vi_write_begin s) 1 phys
      = { s with cfg := setReg s.cfg 1 phys
                 cfg_pending := s.cfg_pending ||| (1 <<< 1)
                 cfg_refcount := s.cfg_refcount + 1 } := by
    rw [vi_write_of_open _ _ _ (by exact Nat.succ_pos _)]
    rfl
  have st2 : vi_write (vi_write (vi_write_begin s) 1 phys) 2 width
      = { s with cfg := setReg (setReg s.cfg 1 phys) 2 width
                 cfg_pending := (s.cfg_pending ||| (1 <<< 1)) ||| (1 <<< 2)
                 cfg_refcount := s.cfg_refcount + 1 } := by
    rw [st1, vi_write_of_open _ _ _ (by exact Nat.succ_pos _)]
    rfl
  have st3 : vi_write_idx_masked_core (vi_write (vi_write (vi_write_begin s) 1 phys) 2 width) 0
        VI_CTRL_TYPE (if bpp = 16 then VI_CTRL_TYPE_16_BPP else VI_CTRL_TYPE_32_BPP)
      = { s with cfg := setReg (setReg (setReg s.cfg 1 phys) 2 width) 0
                   ((s.cfg 0 &&& compl32 VI_CTRL_TYPE) |||
                     (if bpp = 16 then VI_CTRL_TYPE_16_BPP else VI_CTRL_TYPE_32_BPP))
                 cfg_pending := ((s.cfg_pending ||| (1 <<< 1)) ||| (1 <<< 2)) ||| (1 <<< 0)
                 cfg_refcount := s.cfg_refcount + 1 } := by
    rw [st2]
    unfold vi_write_idx_masked_core
    rw [vi_write_maybe_flush_of_open _ (by exact Nat.succ_pos _)]
    have e0 : setReg (setReg s.cfg 1 phys) 2 width 0 = s.cfg 0 := by
      rw [setReg_ne _ _ _ _ (by decide), setReg_ne _ _ _ _ (by decide)]
    dsimp only
    rw [e0]
    rfl
  unfold vi_set_origin_core
  dsimp only
  rw [st3]
  unfold vi_write_end_core
  rw [vi_write_maybe_flush_of_active _ (by exact hactive)]
  rfl

/-- Claim C7: a masked write with a valid slot and a value inside the mask
updates exactly the masked bits of that mirror slot — every other slot, the
hardware latches and all bits outside the mask are unchanged — and sets
exactly that slot's pending bit; a value with bits outside the mask fails the
fatal assertion.  Consequently, two back-to-back `vi_set_origin` calls with
the same buffer at 16 and then 32 bpp change only the 2-bit depth (TYPE)
field of the control slot between them. -/
theorem c7_masked_write (s : ViState) (idx : Fin 14) (wmask value : Nat)
    (hactive : s.hw 0 &&& VI_CTRL_TYPE ≠ VI_CTRL_TYPE_BLANK)
    (hval : value &&& compl32 wmask = 0) :
    (vi_write_idx_masked s idx.val wmask value
        = some (vi_write_idx_masked_core s idx wmask value))
    ∧ (vi_write_idx_masked_core s idx wmask value).cfg idx
        = (s.cfg idx &&& compl32 wmask) ||| value
    ∧ (∀ j : Fin 14, j ≠ idx → (vi_write_idx_masked_core s idx wmask value).cfg j = s.cfg j)
    ∧ (vi_write_idx_masked_core s idx wmask value).cfg_pending
        = s.cfg_pending ||| (1 <<< idx.val)
    ∧ (vi_write_idx_masked_core s idx wmask value).hw = s.hw
    ∧ (∀ v', v' &&& compl32 wmask ≠ 0 → vi_write_idx_masked s idx.val wmask v' = none)
    ∧ (∀ phys width : Nat, phys % 8 = 0 →
        vi_set_origin s phys width 16 = some (vi_set_origin_core s phys width 16)
        ∧ vi_set_origin (vi_set_origin_core s phys width 16) phys width 32
            = some (vi_set_origin_core (vi_set_origin_core s phys width 16) phys width 32)
        ∧ (vi_set_origin_core s phys width 16).cfg 0 &&& VI_CTRL_TYPE = VI_CTRL_TYPE_16_BPP
        ∧ (vi_set_origin_core (vi_set_origin_core s phys width 16) phys width 32).cfg 0
            &&& VI_CTRL_TYPE = VI_CTRL_TYPE_32_BPP
        ∧ (vi_set_origin_core (vi_set_origin_core s phys width 16) phys width 32).cfg 0
            &&& compl32 VI_CTRL_TYPE
            = (vi_set_origin_core s phys width 16).cfg 0 &&& compl32 VI_CTRL_TYPE
        ∧ (∀ j : Fin 14, j ≠ 0 →
            (vi_set_origin_core (vi_set_origin_core s phys width 16) phys width 32).cfg j
              = (vi_set_origin_core s phys width 16).cfg j)) := by
  have hcore : vi_write_idx_masked_core s idx wmask value
      = { s with cfg := setReg s.cfg idx ((s.cfg idx &&& compl32 wmask) ||| value)
                 cfg_pending := s.cfg_pending ||| (1 <<< idx.val) } := by
    unfold vi_write_idx_masked_core
    rw [vi_write_maybe_flush_of_active
      { s with cfg := setReg s.cfg idx ((s.cfg idx &&& compl32 wmask) ||| value)
               cfg_pending := s.cfg_pending ||| (1 <<< idx.val) } (by exact hactive)]
  have hs1 := vi_set_origin_core_eq s
  refine ⟨?_, ?_, ?_, ?_, ?_, ?_, ?_⟩
  · unfold vi_write_idx_masked
    rw [dif_pos idx.isLt, if_pos hval]
  · rw [hcore]
    exact setReg_at _ _ _
  · intro j hj
    rw [hcore]
    exact setReg_ne _ _ _ _ hj
  · rw [hcore]
  · rw [hcore]
  · intro v' hv'
    unfold vi_write_idx_masked
    rw [dif_pos idx.isLt, if_neg hv']
  · intro phys width hal
    have h16 := vi_set_origin_core_eq s phys width 16 hactive
    have hhw1 : (vi_set_origin_core s phys width 16).hw = s.hw := by rw [h16]
    have hact1 : (vi_set_origin_core s phys width 16).hw 0 &&& VI_CTRL_TYPE
        ≠ VI_CTRL_TYPE_BLANK := by rw [hhw1]; exact hactive
    have h32 := vi_set_origin_core_eq (vi_set_origin_core s phys width 16) phys width 32 hact1
    have hc1 : (vi_set_origin_core s phys width 16).cfg 0
        = (s.cfg 0 &&& compl32 VI_CTRL_TYPE) ||| VI_CTRL_TYPE_16_BPP := by
      rw [h16]
      show setReg (setReg (setReg s.cfg 1 phys) 2 width) 0
          ((s.cfg 0 &&& compl32 VI_CTRL_TYPE) ||| VI_CTRL_TYPE_16_BPP) 0
        = (s.cfg 0 &&& compl32 VI_CTRL_TYPE) ||| VI_CTRL_TYPE_16_BPP
      exact setReg_at _ _ _
    have hc2 : (vi_set_origin_core (vi_set_origin_core s phys width 16) phys width 32).cfg 0
        = ((vi_set_origin_core s phys width 16).cfg 0 &&& compl32 VI_CTRL_TYPE)
            ||| VI_CTRL_TYPE_32_BPP := by
      rw [h32]
      show setReg (setReg (setReg (vi_set_origin_core s phys width 16).cfg 1 phys) 2 width) 0
          (((vi_set_origin_core s phys width 16).cfg 0 &&& compl32 VI_CTRL_TYPE)
            ||| VI_CTRL_TYPE_32_BPP) 0
        = ((vi_set_origin_core s phys width 16).cfg 0 &&& compl32 VI_CTRL_TYPE)
            ||| VI_CTRL_TYPE_32_BPP
      exact setReg_at _ _ _
    refine ⟨?_, ?_, ?_, ?_, ?_, ?_⟩
    · unfold vi_set_origin
      rw [if_pos ⟨hal, Or.inl rfl⟩]
    · unfold vi_set_origin
      rw [if_pos ⟨hal, Or.inr rfl⟩]
    · rw [hc1]
      exact land_low_bits _ _ (by decide)
    · rw [hc2]
      exact land_low_bits _ _ (by decide)
    · rw [hc2]
      exact land_high_bits _ _ (by decide)
    · intro j hj
      rw [h32, h16]
      dsimp only
      simp only [setReg]
      split_ifs <;> first
        | rfl
        | exact absurd (by assumption) hj

/-- Witness for C7 at a concrete input: power-on mirror, but with the VI
displaying (hardware CTRL type 16 bpp); write value 0x40 under mask 0xFF0
fails, value 0x40 under mask 0xFF0 means bits outside: use mask 0xFF0 and
value 0x40 (inside), slot 12; then the two `vi_set_origin` calls at physical
address 0x100400, width 320. -/
theorem c7_witness :
    c2state.hw 0 &&& VI_CTRL_TYPE ≠ VI_CTRL_TYPE_BLANK
    ∧ (0x40 : Nat) &&& compl32 0xFF0 = 0
    ∧ ((vi_write_idx_masked c2state (12 : Fin 14).val 0xFF0 0x40
          = some (vi_write_idx_masked_core c2state 12 0xFF0 0x40))
      ∧ (vi_write_idx_masked_core c2state 12 0xFF0 0x40).cfg 12
          = (c2state.cfg 12 &&& compl32 0xFF0) ||| 0x40
      ∧ (∀ j : Fin 14, j ≠ 12 →
          (vi_write_idx_masked_core c2state 12 0xFF0 0x40).cfg j = c2state.cfg j)
      ∧ (vi_write_idx_masked_core c2state 12 0xFF0 0x40).cfg_pending
          = c2state.cfg_pending ||| (1 <<< (12 : Fin 14).val)
      ∧ (vi_write_idx_masked_core c2state 12 0xFF0 0x40).hw = c2state.hw
      ∧ (∀ v', v' &&& compl32 0xFF0 ≠ 0 →
          vi_write_idx_masked c2state (12 : Fin 14).val 0xFF0 v' = none)
      ∧ (∀ phys width : Nat, phys % 8 = 0 →
          vi_set_origin c2state phys width 16 = some (vi_set_origin_core c2state phys width 16)
          ∧ vi_set_origin (vi_set_origin_core c2state phys width 16) phys width 32
              = some (vi_set_origin_core (vi_set_origin_core c2state phys width 16) phys width 32)
          ∧ (vi_set_origin_core c2state phys width 16).cfg 0 &&& VI_CTRL_TYPE
              = VI_CTRL_TYPE_16_BPP
          ∧ (vi_set_origin_core (vi_set_origin_core c2state phys width 16) phys width 32).cfg 0
              &&& VI_CTRL_TYPE = VI_CTRL_TYPE_32_BPP
          ∧ (vi_set_origin_core (vi_set_origin_core c2state phys width 16) phys width 32).cfg 0
              &&& compl32 VI_CTRL_TYPE
              = (vi_set_origin_core c2state phys width 16).cfg 0 &&& compl32 VI_CTRL_TYPE
          ∧ (∀ j : Fin 14, j ≠ 0 →
              (vi_set_origin_core (vi_set_origin_core c2state phys width 16) phys width 32).cfg j
                = (vi_set_origin_core c2state phys width 16).cfg j))) :=
  ⟨by decide, by decide, c7_masked_write c2state 12 0xFF0 0x40 (by decide) (by decide)⟩

/-- Unpacking the high half of a packed `(a << 16) | b` word. -/
theorem pack_shiftRight (a b : Nat) (hb : b < 65536) : ((a <<< 16) ||| b) >>> 16 = a := by
  apply Nat.eq_of_testBit_eq
  intro i
  rw [Nat.testBit_shiftRight, Nat.testBit_lor, Nat.testBit_shiftLeft]
  have hb' : b.testBit (16 + i) = false := by
    apply Nat.testBit_lt_two_pow
    calc b < 65536 := hb
      _ = 2 ^ 16 := by norm_num
      _ ≤ 2 ^ (16 + i) := Nat.pow_le_pow_right (by norm_num) (by omega)
  have he : 16 + i - 16 = i := by omega
  simp [hb', he]

/-- Unpacking the low half of a packed `(a << 16) | b` word. -/
theorem pack_land (a b : Nat) (hb : b < 65536) : ((a <<< 16) ||| b) &&& 0xFFFF = b := by
  apply Nat.eq_of_testBit_eq
  intro i
  rw [Nat.testBit_land, Nat.testBit_lor, Nat.testBit_shiftLeft]
  have hmask : (0xFFFF : Nat).testBit i = decide (i < 16) := by
    have h16 : (0xFFFF : Nat) = 2 ^ 16 - 1 := by norm_num
    rw [h16, Nat.testBit_two_pow_sub_one]
  rw [hmask]
  by_cases hi : i < 16
  · simp [hi, (by omega : ¬ i ≥ 16)]
  · have hb' : b.testBit i = false := by
      apply Nat.testBit_lt_two_pow
      calc b < 65536 := hb
        _ = 2 ^ 16 := by norm_num
        _ ≤ 2 ^ i := Nat.pow_le_pow_right (by norm_num) (by omega)
    simp [hi, hb']

/-- Decoding a `VI_H_VIDEO_SET`-packed register recovers both coordinates
when they are in `[0, 1024)`. -/
theorem hvideo_decode (a b : Int) (ha0 : 0 ≤ a) (ha : a < 1024) (hb0 : 0 ≤ b) (hb : b < 1024) :
    Int.ofNat (VI_H_VIDEO_SET a b >>> 16) = a
    ∧ Int.ofNat (VI_H_VIDEO_SET a b &&& 0xFFFF) = b := by
  unfold VI_H_VIDEO_SET land1023
  have ea : a.emod 1024 = a := Int.emod_eq_of_lt ha0 ha
  have eb : b.emod 1024 = b := Int.emod_eq_of_lt hb0 hb
  rw [ea, eb]
  have hbn : b.toNat < 65536 := by omega
  rw [pack_shiftRight _ _ hbn, pack_land _ _ hbn]
  exact ⟨Int.toNat_of_nonneg ha0, Int.toNat_of_nonneg hb0⟩

/-- When the requested rectangle already lies inside the legal bounds,
`vi_set_output` does not clip it. -/
theorem vi_set_output_in_bounds (s : ViState) (x0 y0 x1 y1 : Int)
    (h1 : (vi_get_output_bounds s).1 ≤ x0) (h2 : x0 ≤ x1)
    (h3 : x1 ≤ (vi_get_output_bounds s).2.2.1)
    (h4 : (vi_get_output_bounds s).2.1 ≤ y0) (h5 : y0 ≤ y1)
    (h6 : y1 ≤ (vi_get_output_bounds s).2.2.2) :
    vi_set_output s x0 y0 x1 y1 = __set_output s x0 y0 x1 y1 := by
  have hx0 : ¬ x0 < (vi_get_output_bounds s).1 := by omega
  have hy0 : ¬ y0 < (vi_get_output_bounds s).2.1 := by omega
  have hx1 : ¬ x1 > (vi_get_output_bounds s).2.2.1 := by omega
  have hy1 : ¬ y1 > (vi_get_output_bounds s).2.2.2 := by omega
  unfold vi_set_output
  dsimp only
  rw [if_neg (by push_neg; omega)]
  rw [if_neg hx0, if_neg hy0]
  dsimp only
  rw [if_neg hx1, if_neg hy1]

/-- Claim C9: for every output rectangle that lies within the current legal
bounds (with coordinates below 1024, as every rectangle programmed through
`vi_set_output` is), `vi_set_borders (vi_get_borders ())` leaves the output
rectangle unchanged; concretely, on the initialized NTSC state whose default
window is (108,35)-(748,515), `vi_set_borders {12,12,12,12}` produces the
output rectangle (120,47)-(736,503) and `vi_get_borders` afterwards returns
`{12,12,12,12}`. -/
theorem c9_borders_roundtrip (s : ViState)
    (h1 : (vi_get_output_bounds s).1 ≤ (__get_output s).1)
    (h2 : (__get_output s).1 ≤ (__get_output s).2.2.1)
    (h3 : (__get_output s).2.2.1 ≤ (vi_get_output_bounds s).2.2.1)
    (h4 : (vi_get_output_bounds s).2.1 ≤ (__get_output s).2.1)
    (h5 : (__get_output s).2.1 ≤ (__get_output s).2.2.2)
    (h6 : (__get_output s).2.2.2 ≤ (vi_get_output_bounds s).2.2.2)
    (h7 : (__get_output s).2.2.1 < 1024) (h8 : (__get_output s).2.2.2 < 1024) :
    __get_output (vi_set_borders s (vi_get_borders s)) = __get_output s
    ∧ __get_output vsN = (108, 35, 748, 515)
    ∧ __get_output (vi_set_borders vsN ⟨12, 12, 12, 12⟩) = (120, 47, 736, 503)
    ∧ vi_get_borders (vi_set_borders vsN ⟨12, 12, 12, 12⟩) = ⟨12, 12, 12, 12⟩ := by
  refine ⟨?_, by decide, by decide, by decide⟩
  have hx00 : 0 ≤ (__get_output s).1 := Int.ofNat_nonneg _
  have hy00 : 0 ≤ (__get_output s).2.1 := Int.ofNat_nonneg _
  have hx10 : 0 ≤ (__get_output s).2.2.1 := Int.ofNat_nonneg _
  have hy10 : 0 ≤ (__get_output s).2.2.2 := Int.ofNat_nonneg _
  have hb : vi_set_borders s (vi_get_borders s)
      = vi_set_output s (__get_output s).1 (__get_output s).2.1
          (__get_output s).2.2.1 (__get_output s).2.2.2 := by
    unfold vi_set_borders vi_get_borders
    dsimp only
    have e1 : (vi_presets s.tv_type).display_x0
        + ((__get_output s).1 - (vi_presets s.tv_type).display_x0) = (__get_output s).1 := by
      ring
    have e2 : (vi_presets s.tv_type).display_y0
        + ((__get_output s).2.1 - (vi_presets s.tv_type).display_y0) = (__get_output s).2.1 := by
      ring
    have e3 : (vi_presets s.tv_type).display_x0 + (vi_presets s.tv_type).display_width
        - -((__get_output s).2.2.1
            - ((vi_presets s.tv_type).display_x0 + (vi_presets s.tv_type).display_width))
        = (__get_output s).2.2.1 := by
      ring
    have e4 : (vi_presets s.tv_type).display_y0 + (vi_presets s.tv_type).display_height
        - -((__get_output s).2.2.2
            - ((vi_presets s.tv_type).display_y0 + (vi_presets s.tv_type).display_height))
        = (__get_output s).2.2.2 := by
      ring
    rw [e1, e2, e3, e4]
  have hres : vi_set_borders s (vi_get_borders s)
      = vi_write_maybe_flush
          { s with cfg := setReg (setReg s.cfg 9
                      (VI_H_VIDEO_SET (__get_output s).1 (__get_output s).2.2.1)) 10
                      (VI_V_VIDEO_SET (__get_output s).2.1 (__get_output s).2.2.2)
                   cfg_pending := (s.cfg_pending ||| (1 <<< 9)) ||| (1 <<< 10) } := by
    rw [hb, vi_set_output_in_bounds s _ _ _ _ h1 h2 h3 h4 h5 h6, __set_output_eq]
  have hc9 : (vi_set_borders s (vi_get_borders s)).cfg 9
      = VI_H_VIDEO_SET (__get_output s).1 (__get_output s).2.2.1 := by
    rw [hres, (vi_write_maybe_flush_frame _).1]
    show setReg (setReg s.cfg 9 (VI_H_VIDEO_SET (__get_output s).1 (__get_output s).2.2.1)) 10
        (VI_V_VIDEO_SET (__get_output s).2.1 (__get_output s).2.2.2) 9
      = VI_H_VIDEO_SET (__get_output s).1 (__get_output s).2.2.1
    rw [setReg_ne _ _ _ _ (by decide), setReg_at]
  have hc10 : (vi_set_borders s (vi_get_borders s)).cfg 10
      = VI_V_VIDEO_SET (__get_output s).2.1 (__get_output s).2.2.2 := by
    rw [hres, (vi_write_maybe_flush_frame _).1]
    show setReg (setReg s.cfg 9 (VI_H_VIDEO_SET (__get_output s).1 (__get_output s).2.2.1)) 10
        (VI_V_VIDEO_SET (__get_output s).2.1 (__get_output s).2.2.2) 10
      = VI_V_VIDEO_SET (__get_output s).2.1 (__get_output s).2.2.2
    rw [setReg_at]
  obtain ⟨d1, d2⟩ := hvideo_decode (__get_output s).1 (__get_output s).2.2.1
    hx00 (by omega) hx10 h7
  obtain ⟨d3, d4⟩ := hvideo_decode (__get_output s).2.1 (__get_output s).2.2.2
    hy00 (by omega) hy10 h8
  have hget : ∀ t : ViState, __get_output t
      = (Int.ofNat (t.cfg 9 >>> 16), Int.ofNat (t.cfg 10 >>> 16),
         Int.ofNat (t.cfg 9 &&& 0xFFFF), Int.ofNat (t.cfg 10 &&& 0xFFFF)) := fun t => rfl
  rw [hget (vi_set_borders s (vi_get_borders s)), hc9, hc10]
  unfold VI_V_VIDEO_SET
  rw [d1, d2, d3, d4]

/-- Witness for C9 at the initialized NTSC state: its default rectangle
(108,35)-(748,515) lies inside the legal bounds (96,5)-(773,525). -/
theorem c9_witness :
    (vi_get_output_bounds vsN).1 ≤ (__get_output vsN).1
    ∧ (__get_output vsN).1 ≤ (__get_output vsN).2.2.1
    ∧ (__get_output vsN).2.2.1 ≤ (vi_get_output_bounds vsN).2.2.1
    ∧ (vi_get_output_bounds vsN).2.1 ≤ (__get_output vsN).2.1
    ∧ (__get_output vsN).2.1 ≤ (__get_output vsN).2.2.2
    ∧ (__get_output vsN).2.2.2 ≤ (vi_get_output_bounds vsN).2.2.2
    ∧ (__get_output vsN).2.2.1 < 1024 ∧ (__get_output vsN).2.2.2 < 1024
    ∧ (__get_output (vi_set_borders vsN (vi_get_borders vsN)) = __get_output vsN
      ∧ __get_output vsN = (108, 35, 748, 515)
      ∧ __get_output (vi_set_borders vsN ⟨12, 12, 12, 12⟩) = (120, 47, 736, 503)
      ∧ vi_get_borders (vi_set_borders vsN ⟨12, 12, 12, 12⟩) = ⟨12, 12, 12, 12⟩) :=
  ⟨by decide, by decide, by decide, by decide, by decide, by decide, by decide, by decide,
    c9_borders_roundtrip vsN (by decide) (by decide) (by decide) (by decide) (by decide)
      (by decide) (by decide) (by decide)⟩

/-- Callback behaviours that mutate only the shadow line interrupt table
(and nothing else — in particular they do not queue a shadow commit). -/
def CbShadow (cb : Nat → ViState → ViState) : Prop :=
  ∀ h t, ∃ nl, cb h t = { t with new_line_irqs := nl }

/-- Callback behaviours that mutate only the shadow line interrupt table and
the pending-edits flag — exactly the state a callback can reach through
`vi_set_line_interrupt`. -/
def CbShadowEdit (cb : Nat → ViState → ViState) : Prop :=
  ∀ h t, ∃ nl fl, cb h t = { t with new_line_irqs := nl, cfg_pending_lineirqs := fl }

/-- Reading the table below the capacity. -/
theorem irqAt_lt (T : Fin 16 → LineIrq) (i : Nat) (h : i < 16) : irqAt T i = T ⟨i, h⟩ :=
  dif_pos h

/-- After the pre-callback part of `__vi_interrupt`, the interrupt trigger
register holds the scanline of the live entry now under the cursor. -/
theorem fire_reprograms (t : ViState) :
    (__vi_interrupt_fire t).1.hw 3
      = (irqAt (__vi_interrupt_fire t).1.line_irqs ((__vi_interrupt_fire t).1.cur_line_irq)).line := by
  unfold __vi_interrupt_fire
  dsimp only
  split <;> rw [setReg_at]

/-- The visiting order of consecutive firings: starting from cursor `c` on a
live table whose entries `0..N` are the non-sentinel ones, the remaining
`N + 1 - c` firings run the handlers of entries `c..N` in order, then wrap
the cursor to the head and re-arm the head entry's line — provided the
callbacks only edit the shadow table. -/
theorem fireMany_visits (cb : Nat → ViState → ViState) (hcb : CbShadow cb)
    (N : Nat) (hN : N + 1 < 16) (T : Fin 16 → LineIrq)
    (hT1 : ∀ i : Fin 16, N < i.val → (T i).line = 0)
    (hT0 : ∀ i : Fin 16, i.val ≤ N → (T i).line ≠ 0) :
    ∀ r c s, s.line_irqs = T → s.cfg_pending_lineirqs = false → s.cur_line_irq = c →
      c + r = N + 1 → c ≤ N →
      (fireMany cb r s).2 = (List.range r).map (fun k => (irqAt T (c + k)).handler)
      ∧ (fireMany cb r s).1.cur_line_irq = 0
      ∧ (fireMany cb r s).1.line_irqs = T
      ∧ (fireMany cb r s).1.hw 3 = (irqAt T 0).line := by
  intro r
  induction r with
  | zero =>
    intro c s _ _ _ hsum hc
    omega
  | succ r ih =>
    intro c s hT hflag hcur hsum hc
    have hc16 : c < 16 := by omega
    have hfire : __vi_interrupt_fire s
        = ({ s with
              cur_line_irq := (if (irqAt T (c + 1)).line = 0 then 0 else c + 1)
              hw := setReg s.hw 3
                (irqAt T (if (irqAt T (c + 1)).line = 0 then 0 else c + 1)).line },
           (irqAt T c).handler) := by
      unfold __vi_interrupt_fire
      dsimp only
      rw [if_neg (by simp [hflag]), hT, hcur]
    obtain ⟨nl, hnl⟩ := hcb (irqAt T c).handler (__vi_interrupt_fire s).1
    have hone : (__vi_interrupt cb s).1
        = cb (irqAt T c).handler (__vi_interrupt_fire s).1 := by
      unfold __vi_interrupt
      rw [hfire]
    have hone2 : (__vi_interrupt cb s).2 = (irqAt T c).handler := by
      unfold __vi_interrupt
      rw [hfire]
    have hprops : (__vi_interrupt cb s).1.line_irqs = T
        ∧ (__vi_interrupt cb s).1.cfg_pending_lineirqs = false
        ∧ (__vi_interrupt cb s).1.cur_line_irq
            = (if (irqAt T (c + 1)).line = 0 then 0 else c + 1)
        ∧ (__vi_interrupt cb s).1.hw
            = setReg s.hw 3
                (irqAt T (if (irqAt T (c + 1)).line = 0 then 0 else c + 1)).line := by
      rw [hone, hnl, hfire]
      exact ⟨hT, hflag, rfl, rfl⟩
    have hexp : fireMany cb (r + 1) s
        = ((fireMany cb r (__vi_interrupt cb s).1).1,
           (__vi_interrupt cb s).2 :: (fireMany cb r (__vi_interrupt cb s).1).2) := rfl
    by_cases hcN : c < N
    · have hne : (irqAt T (c + 1)).line ≠ 0 := by
        rw [irqAt_lt T (c + 1) (by omega)]
        exact hT0 ⟨c + 1, by omega⟩ (by show c + 1 ≤ N; omega)
      have hcur1 : (__vi_interrupt cb s).1.cur_line_irq = c + 1 := by
        rw [hprops.2.2.1, if_neg hne]
      obtain ⟨ht1, ht2, ht3, ht4⟩ := ih (c + 1) (__vi_interrupt cb s).1
        hprops.1 hprops.2.1 hcur1 (by omega) (by omega)
      refine ⟨?_, ?_, ?_, ?_⟩
      · rw [hexp]
        dsimp only
        rw [hone2, ht1, List.range_succ_eq_map, List.map_cons, List.map_map]
        congr 1
        · exact List.map_congr_left (fun a _ => by
            show (irqAt T (c + 1 + a)).handler = (irqAt T (c + (a + 1))).handler
            rw [show c + 1 + a = c + (a + 1) from by omega])
      · rw [hexp]
        exact ht2
      · rw [hexp]
        exact ht3
      · rw [hexp]
        exact ht4
    · have hceq : c = N := by omega
      have hr0 : r = 0 := by omega
      subst hceq hr0
      have hz : (irqAt T (c + 1)).line = 0 := by
        rw [irqAt_lt T (c + 1) (by omega)]
        exact hT1 ⟨c + 1, by omega⟩ (by show c < c + 1; omega)
      have hcur0 : (__vi_interrupt cb s).1.cur_line_irq = 0 := by
        rw [hprops.2.2.1, if_pos hz]
      refine ⟨?_, ?_, ?_, ?_⟩
      · rw [hexp]
        dsimp only
        rw [hone2,
          show fireMany cb 0 (__vi_interrupt cb s).1 = ((__vi_interrupt cb s).1, []) from rfl]
        rfl
      · rw [hexp]
        dsimp only
        rw [show fireMany cb 0 (__vi_interrupt cb s).1 = ((__vi_interrupt cb s).1, []) from rfl]
        exact hcur0
      · rw [hexp]
        dsimp only
        rw [show fireMany cb 0 (__vi_interrupt cb s).1 = ((__vi_interrupt cb s).1, []) from rfl]
        exact hprops.1
      · rw [hexp]
        dsimp only
        rw [show fireMany cb 0 (__vi_interrupt cb s).1 = ((__vi_interrupt cb s).1, []) from rfl]
        rw [hprops.2.2.2, hz]
        simp only [if_pos]
        rw [setReg_at]

/-- Claim C3: on every firing of the line interrupt the cursor's callback
runs, the cursor advances (wrapping at the scanline-0 sentinel) and the
trigger register `VI_V_INTR` is reprogrammed with the new cursor's scanline
before the callback returns — even if the callback edits the (shadow)
interrupt table; consequently, with the vblank entry plus N scheduled entries
in a sorted live table, N+1 consecutive firings run the callbacks in strictly
ascending scanline order and then wrap back to the lowest (vblank) entry,
leaving it armed. -/
theorem c3_firing_rotation (cb : Nat → ViState → ViState) (hcb : CbShadow cb)
    (N : Nat) (s : ViState)
    (hN : N + 1 < 16)
    (hflag : s.cfg_pending_lineirqs = false)
    (hcur : s.cur_line_irq = 0)
    (hT0 : ∀ i : Fin 16, i.val ≤ N → (s.line_irqs i).line ≠ 0)
    (hT1 : ∀ i : Fin 16, N < i.val → (s.line_irqs i).line = 0)
    (hsorted : ∀ i j : Fin 16, i.val < j.val → j.val ≤ N →
      (s.line_irqs i).line < (s.line_irqs j).line) :
    (∀ (cb2 : Nat → ViState → ViState), CbShadowEdit cb2 → ∀ t : ViState,
      (__vi_interrupt cb2 t).1.hw 3
        = (irqAt (__vi_interrupt cb2 t).1.line_irqs ((__vi_interrupt cb2 t).1.cur_line_irq)).line)
    ∧ (fireMany cb (N + 1) s).2
        = (List.range (N + 1)).map (fun k => (irqAt s.line_irqs k).handler)
    ∧ (∀ k, k < N → (irqAt s.line_irqs k).line < (irqAt s.line_irqs (k + 1)).line)
    ∧ (fireMany cb (N + 1) s).1.cur_line_irq = 0
    ∧ (fireMany cb (N + 1) s).1.hw 3 = (irqAt s.line_irqs 0).line
    ∧ (fireMany cb (N + 1) s).1.line_irqs = s.line_irqs := by
  obtain ⟨ht1, ht2, ht3, ht4⟩ :=
    fireMany_visits cb hcb N hN s.line_irqs hT1 hT0 (N + 1) 0 s rfl hflag hcur
      (by omega) (by omega)
  refine ⟨?_, ?_, ?_, ht2, ht4, ht3⟩
  · intro cb2 hcb2 t
    obtain ⟨nl, fl, hnl⟩ := hcb2 (__vi_interrupt_fire t).2 (__vi_interrupt_fire t).1
    have hstep : (__vi_interrupt cb2 t).1
        = cb2 (__vi_interrupt_fire t).2 (__vi_interrupt_fire t).1 := rfl
    rw [hstep, hnl]
    exact fire_reprograms t
  · rw [ht1]
    exact List.map_congr_left (fun a _ => by
      show (irqAt s.line_irqs (0 + a)).handler = (irqAt s.line_irqs a).handler
      rw [Nat.zero_add])
  · intro k hk
    rw [irqAt_lt s.line_irqs k (by omega), irqAt_lt s.line_irqs (k + 1) (by omega)]
    exact hsorted ⟨k, by omega⟩ ⟨k + 1, by omega⟩ (by exact Nat.lt_succ_self k)
      (by show k + 1 ≤ N; omega)

/-- State for the C3 witness: the live table holds the vblank entry (line 2,
handler 1) and two scheduled entries at lines 301 (handler 5) and 401
(handler 7); cursor at the head, no pending edits. -/
def c3state : ViState :=
  { vs0 with line_irqs := fun i =>
      if i.val = 0 then ⟨2, 1⟩ else if i.val = 1 then ⟨301, 5⟩
      else if i.val = 2 then ⟨401, 7⟩ else ⟨0, 0⟩ }

/-- Witness for C3: with N = 2 scheduled entries and identity callbacks,
three firings visit handlers 1, 5, 7 and wrap back to the vblank entry. -/
theorem c3_witness :
    CbShadow (fun _ t => t)
    ∧ (2 : Nat) + 1 < 16
    ∧ c3state.cfg_pending_lineirqs = false
    ∧ c3state.cur_line_irq = 0
    ∧ (∀ i : Fin 16, i.val ≤ 2 → (c3state.line_irqs i).line ≠ 0)
    ∧ (∀ i : Fin 16, 2 < i.val → (c3state.line_irqs i).line = 0)
    ∧ (∀ i j : Fin 16, i.val < j.val → j.val ≤ 2 →
        (c3state.line_irqs i).line < (c3state.line_irqs j).line)
    ∧ ((∀ (cb2 : Nat → ViState → ViState), CbShadowEdit cb2 → ∀ t : ViState,
        (__vi_interrupt cb2 t).1.hw 3
          = (irqAt (__vi_interrupt cb2 t).1.line_irqs
              ((__vi_interrupt cb2 t).1.cur_line_irq)).line)
      ∧ (fireMany (fun _ t => t) (2 + 1) c3state).2
          = (List.range (2 + 1)).map (fun k => (irqAt c3state.line_irqs k).handler)
      ∧ (∀ k, k < 2 →
          (irqAt c3state.line_irqs k).line < (irqAt c3state.line_irqs (k + 1)).line)
      ∧ (fireMany (fun _ t => t) (2 + 1) c3state).1.cur_line_irq = 0
      ∧ (fireMany (fun _ t => t) (2 + 1) c3state).1.hw 3 = (irqAt c3state.line_irqs 0).line
      ∧ (fireMany (fun _ t => t) (2 + 1) c3state).1.line_irqs = c3state.line_irqs) :=
  ⟨fun h t => ⟨t.new_line_irqs, rfl⟩, by decide, by decide, by decide, by decide, by decide,
    by decide,
    c3_firing_rotation (fun _ t => t) (fun h t => ⟨t.new_line_irqs, rfl⟩) 2 c3state
      (by decide) (by decide) (by decide) (by decide) (by decide) (by decide)⟩
